import Mathlib

/-!
Verification development for the dj-stripe event ingestion pipeline.

Shallow embedding of:
  - src/djstripe/views.py (ProcessWebhookView.post)
  - src/djstripe/management/commands/djstripe_process_events.py
    (Command.handle, Command.process_events)

External collaborators (the ORM, the stripe client, the webhook trigger
model, the verbosity mixin) are not part of the examined sources; they are
modelled as abstract parameters, or from the spec where noted.
-/

/- ### Webhook view (src/djstripe/views.py) -/

/-- EndpointType from djstripe.models.webhooks: a tag passed through to the
trigger; the two URL variants differ only in this tag. -/
inductive EndpointType
  | account
  | connect
deriving DecidableEq

/-- An inbound webhook POST request. has_stripe_signature models whether
HTTP_STRIPE_SIGNATURE is a key of request.META; the body is opaque. -/
structure WebhookRequest where
  has_stripe_signature : Bool
  body : String
deriving DecidableEq

/-- WebhookEventTrigger record as the view observes it: a generated local id,
the valid flag set by signature verification, and the test-event flag. -/
structure WebhookEventTrigger where
  id : Nat
  valid : Bool
  is_test_event : Bool
deriving DecidableEq

/-- HTTP responses the view can return: HttpResponseBadRequest() is the
400-equivalent, HttpResponse(body) is a 200 with the given body. -/
inductive HttpResponse
  | badRequest
  | ok (body : String)
deriving DecidableEq

/-- Fixed acknowledgement body for test webhooks (views.py line 40). -/
def testAckBody : String := "Test webhook successfully received!"

/-- Embedding of ProcessWebhookView.post (views.py lines 30-46).
from_request stands for WebhookEventTrigger.from_request, an external
collaborator (djstripe.models); the second component of the result is the
list of trigger records created during the request. -/
def ProcessWebhookView_post
    (from_request : WebhookRequest → EndpointType → WebhookEventTrigger)
    (endpoint_type : EndpointType) (request : WebhookRequest) :
    HttpResponse × List WebhookEventTrigger :=
  if ¬ request.has_stripe_signature then
    (HttpResponse.badRequest, [])
  else
    let trigger := from_request request endpoint_type
    if trigger.is_test_event then
      (HttpResponse.ok testAckBody, [trigger])
    else if ¬ trigger.valid then
      (HttpResponse.badRequest, [trigger])
    else
      (HttpResponse.ok (toString trigger.id), [trigger])

/-- Sample trigger factory for witnesses: the created trigger echoes fixed
flags regardless of the request. -/
def mkTrigger (v t : Bool) : WebhookRequest → EndpointType → WebhookEventTrigger :=
  fun _ _ => ⟨7, v, t⟩

/-- C5: a webhook POST without the Stripe signature header gets a
400-equivalent response and creates no WebhookEventTrigger record. -/
theorem webhook_missing_signature (from_request : WebhookRequest → EndpointType → WebhookEventTrigger)
    (endpoint_type : EndpointType) (request : WebhookRequest)
    (h : request.has_stripe_signature = false) :
    ProcessWebhookView_post from_request endpoint_type request =
      (HttpResponse.badRequest, []) := by
  simp [ProcessWebhookView_post, h]

theorem webhook_missing_signature_witness :
    (⟨false, "payload"⟩ : WebhookRequest).has_stripe_signature = false ∧
    ProcessWebhookView_post (mkTrigger true false) EndpointType.account ⟨false, "payload"⟩ =
      (HttpResponse.badRequest, []) :=
  ⟨rfl, webhook_missing_signature (mkTrigger true false) EndpointType.account ⟨false, "payload"⟩ rfl⟩

/-- C6: a webhook POST carrying a signature header creates exactly one
trigger record whatever the validity outcome, and when the trigger is not a
test event and its valid flag is false the response is a 400-equivalent. -/
theorem webhook_signed_one_trigger (from_request : WebhookRequest → EndpointType → WebhookEventTrigger)
    (endpoint_type : EndpointType) (request : WebhookRequest)
    (h : request.has_stripe_signature = true) :
    (ProcessWebhookView_post from_request endpoint_type request).2 =
      [from_request request endpoint_type] ∧
    ((from_request request endpoint_type).is_test_event = false →
      (from_request request endpoint_type).valid = false →
      (ProcessWebhookView_post from_request endpoint_type request).1 =
        HttpResponse.badRequest) := by
  constructor
  · by_cases ht : (from_request request endpoint_type).is_test_event
    · simp [ProcessWebhookView_post, h, ht]
    · by_cases hv : (from_request request endpoint_type).valid <;>
        simp [ProcessWebhookView_post, h, ht, hv]
  · intro ht hv
    simp [ProcessWebhookView_post, h, ht, hv]

theorem webhook_signed_one_trigger_witness :
    (⟨true, "payload"⟩ : WebhookRequest).has_stripe_signature = true ∧
    (ProcessWebhookView_post (mkTrigger false false) EndpointType.account ⟨true, "payload"⟩).2 =
      [mkTrigger false false ⟨true, "payload"⟩ EndpointType.account] ∧
    (ProcessWebhookView_post (mkTrigger false false) EndpointType.account ⟨true, "payload"⟩).1 =
      HttpResponse.badRequest := by
  have h := webhook_signed_one_trigger (mkTrigger false false) EndpointType.account
    ⟨true, "payload"⟩ rfl
  exact ⟨rfl, h.1, h.2 rfl rfl⟩

/-- C7: a webhook POST whose created trigger is a test event gets a 200 with
the fixed acknowledgement body, and the single recorded trigger carries
is_test_event true. -/
theorem webhook_test_event (from_request : WebhookRequest → EndpointType → WebhookEventTrigger)
    (endpoint_type : EndpointType) (request : WebhookRequest)
    (h : request.has_stripe_signature = true)
    (ht : (from_request request endpoint_type).is_test_event = true) :
    ProcessWebhookView_post from_request endpoint_type request =
      (HttpResponse.ok testAckBody, [from_request request endpoint_type]) ∧
    (from_request request endpoint_type).is_test_event = true := by
  refine ⟨?_, ht⟩
  simp [ProcessWebhookView_post, h, ht]

theorem webhook_test_event_witness :
    (⟨true, "payload"⟩ : WebhookRequest).has_stripe_signature = true ∧
    (mkTrigger false true ⟨true, "payload"⟩ EndpointType.account).is_test_event = true ∧
    ProcessWebhookView_post (mkTrigger false true) EndpointType.account ⟨true, "payload"⟩ =
      (HttpResponse.ok testAckBody, [mkTrigger false true ⟨true, "payload"⟩ EndpointType.account]) := by
  have h := webhook_test_event (mkTrigger false true) EndpointType.account ⟨true, "payload"⟩ rfl rfl
  exact ⟨rfl, h.2, h.1⟩

/-- C8: a webhook POST whose created trigger is valid and not a test event
gets a 200 whose body is the trigger identifier rendered as a string. -/
theorem webhook_valid_signature (from_request : WebhookRequest → EndpointType → WebhookEventTrigger)
    (endpoint_type : EndpointType) (request : WebhookRequest)
    (h : request.has_stripe_signature = true)
    (ht : (from_request request endpoint_type).is_test_event = false)
    (hv : (from_request request endpoint_type).valid = true) :
    ProcessWebhookView_post from_request endpoint_type request =
      (HttpResponse.ok (toString (from_request request endpoint_type).id),
        [from_request request endpoint_type]) := by
  simp [ProcessWebhookView_post, h, ht, hv]

theorem webhook_valid_signature_witness :
    (⟨true, "payload"⟩ : WebhookRequest).has_stripe_signature = true ∧
    (mkTrigger true false ⟨true, "payload"⟩ EndpointType.account).is_test_event = false ∧
    (mkTrigger true false ⟨true, "payload"⟩ EndpointType.account).valid = true ∧
    ProcessWebhookView_post (mkTrigger true false) EndpointType.account ⟨true, "payload"⟩ =
      (HttpResponse.ok "7", [mkTrigger true false ⟨true, "payload"⟩ EndpointType.account]) :=
  ⟨rfl, rfl, rfl,
    webhook_valid_signature (mkTrigger true false) EndpointType.account ⟨true, "payload"⟩ rfl rfl rfl⟩

/- ### Batch command (src/djstripe/management/commands/djstripe_process_events.py) -/

/-- Raw event payload as the command sees it: a dict-like object. The id
field models the "id" key: none means the key is missing, so a subscript
access raises KeyError; the rest of the payload is opaque. -/
structure EventData where
  id : Option String
  payload : String
deriving DecidableEq

/-- Local Event model instance returned by models.Event.process on success;
the command only reads its id attribute (line 160). -/
structure DjEvent where
  id : String
deriving DecidableEq

/-- Output lines the command can emit, one constructor per format string of
the source (lines 102, 105, 108, 110, 151, 153, 160, 163, 165, 169, 172),
plus the traceback print of verbose_traceback (line 166). -/
inductive OutputLine
  | processingFailedEvents
  | processingTypeFilter (filter : String)
  | processingSpecificEvents (events : List String)
  | processingAllEvents
  | processingAccount (account : String)
  | processingOwnAccount
  | syncedEvent (id : String)
  | failedEvent (id : String)
  | exceptionLine (exc : String)
  | tracebackLine
  | noResults
  | processedSummary (count : Nat) (total : Nat)
deriving DecidableEq

/-- Python exceptions the command can raise unhandled, plus the
configuration error raised through argparse (self._parser.error). -/
inductive PyError
  | configError (msg : String)
  | typeError (msg : String)
  | attributeError (msg : String)
  | keyError (key : String)
  | indexError (msg : String)
deriving DecidableEq

/-- Message of the AttributeError raised when process_events calls .items()
on the generator built by the by-ID branch (line 115 against line 149). -/
def attrItemsMsg : String := "generator object has no attribute items"

/-- Message of the TypeError raised by len(None) at line 86 when account_ids
was never resolved to a list. -/
def lenNoneMsg : String := "object of type NoneType has no len"

/-- Formatted message passed to self._parser.error at lines 87-97, with
account_ids_arg and no_connect_arg substituted. -/
def configErrorMsg : String :=
  "Event IDs cannot be specified when multiple connected Accounts " ++
  "were specified or already exist. Please sync events for one " ++
  "account at a time using --account-ids, or specify --no-connect " ++
  "to skip syncing from connected accounts."

/-- Modelled from the spec: VerbosityAwareOutputMixin (djstripe.mixins) is
not among the examined sources. Per the spec, normal output such as the
terminal summary is always emitted, while verbosity levels control whether
per-event trace lines are emitted. self.output appends unconditionally. -/
def output (lines : List OutputLine) (l : OutputLine) : List OutputLine :=
  lines ++ [l]

/-- Modelled from the spec: self.verbose_output of VerbosityAwareOutputMixin
appends its line only when the verbose flag is set. -/
def verbose_output (verbose : Bool) (lines : List OutputLine) (l : OutputLine) :
    List OutputLine :=
  if verbose then lines ++ [l] else lines

/-- Python truthiness of an optional string (None and the empty string are
falsy). -/
def strTruthy : Option String → Bool
  | some s => s != ""
  | none => false

/-- Python truthiness of an optional list (None and the empty list are
falsy). -/
def listTruthy : Option (List String) → Bool
  | some (_ :: _) => true
  | _ => false

/-- One event-dispatch attempt, models.Event.process (external collaborator,
line 158): either the processed Event or a raised exception message. -/
abbrev Dispatcher := EventData → Option String → Except String DjEvent

/-- Check whether a dispatch attempt returned without raising. -/
def exceptOk : Except String DjEvent → Bool
  | Except.ok _ => true
  | Except.error _ => false

/-- What self.process_events receives (line 142): the by-ID branch of handle
builds a generator expression (lines 115-120) whose closure captures the
event-ID list and the resolved account-ID list and whose body never runs
before the generator is iterated; the listing branch builds a dict mapping
account id (None for the default account) to a fetched event list
(lines 121-140). -/
inductive ListedEvents
  | generator (event_ids : List String) (account_ids : List String)
  | mapping (m : List (Option String × List EventData))
deriving DecidableEq

/-- Inner loop of Command.process_events (lines 155-166) over one tenant
event list, threading the count/total counters and the output transcript.
Dispatch failure reads event_data["id"] inside the except block, so a
payload without the key raises KeyError out of process_events. -/
def processEventList (process : Dispatcher) (verbose : Bool) (account_id : Option String) :
    List EventData → Nat → Nat → List OutputLine →
    Except (PyError × List OutputLine) (Nat × Nat × List OutputLine)
  | [], count, total, lines => Except.ok (count, total, lines)
  | event_data :: rest, count, total, lines =>
    let total := total + 1
    match process event_data account_id with
    | Except.ok event =>
      let count := count + 1
      let lines := verbose_output verbose lines (OutputLine.syncedEvent event.id)
      processEventList process verbose account_id rest count total lines
    | Except.error exc =>
      match event_data.id with
      | none => Except.error (PyError.keyError "id", lines)
      | some i =>
        let lines := verbose_output verbose lines (OutputLine.failedEvent i)
        let lines := output lines (OutputLine.exceptionLine exc)
        let lines := verbose_output verbose lines OutputLine.tracebackLine
        processEventList process verbose account_id rest count total lines

/-- Outer loop of Command.process_events (lines 149-166) over the items of
the tenant-to-events dict, in insertion order. -/
def processItems (process : Dispatcher) (verbose : Bool) :
    List (Option String × List EventData) → Nat → Nat → List OutputLine →
    Except (PyError × List OutputLine) (Nat × Nat × List OutputLine)
  | [], count, total, lines => Except.ok (count, total, lines)
  | (account_id, event_list) :: rest, count, total, lines =>
    let lines :=
      if strTruthy account_id then
        verbose_output verbose lines (OutputLine.processingAccount (account_id.getD ""))
      else
        verbose_output verbose lines OutputLine.processingOwnAccount
    match processEventList process verbose account_id event_list count total lines with
    | Except.error e => Except.error e
    | Except.ok (count, total, lines) => processItems process verbose rest count total lines

/-- Command.process_events (lines 144-175). Calling .items() on the
generator produced by the by-ID branch raises AttributeError at once; on a
dict it iterates all items and then emits exactly one terminal line. -/
def process_events (process : Dispatcher) (verbose : Bool) :
    ListedEvents → Except (PyError × List OutputLine) (Nat × Nat × List OutputLine)
  | ListedEvents.generator _ _ => Except.error (PyError.attributeError attrItemsMsg, [])
  | ListedEvents.mapping m =>
    match processItems process verbose m 0 0 [] with
    | Except.error e => Except.error e
    | Except.ok (count, total, lines) =>
      let lines :=
        if total = 0 then output lines OutputLine.noResults
        else output lines (OutputLine.processedSummary count total)
      Except.ok (count, total, lines)

/-- Keyword arguments assembled for models.Event.api_list (lines 122-127):
delivery_success is set to false only under the failed flag, and the type
key is set only when a truthy type filter was supplied. -/
structure ListKwargs where
  delivery_success : Option Bool
  event_type : Option String
deriving DecidableEq

/-- One remote API call performed while handling the command, for tracking
that configuration errors abort before any fetch. -/
inductive FetchCall
  | apiListCall (stripe_account : Option String) (kwargs : ListKwargs)
  | retrieveCall (id : String) (stripe_account : Option String)
deriving DecidableEq

/-- External collaborators of Command.handle: the Account queryset used for
tenant discovery (line 84), the stripe list call (lines 130, 137), the
stripe retrieve call captured but never run by the by-ID generator
(line 116), and models.Event.process (line 158). -/
structure Env where
  db_account_ids : List String
  api_list : Option String → ListKwargs → List EventData
  retrieve : String → Option String → EventData
  process : Dispatcher

/-- Parsed command-line options as handle reads them (lines 76-80): ids and
account_ids are None when the argument was absent, a possibly empty list
when given; verbose is the verbosity flag consumed by the output mixin. -/
structure CmdOptions where
  ids : Option (List String)
  failed : Bool
  type_filter : Option String
  account_ids : Option (List String)
  no_connect : Bool
  verbose : Bool

/-- Lines 82-84: when no account IDs were provided (falsy) and no_connect is
not set, account_ids is replaced by the IDs of all Account rows; otherwise
it keeps its parsed value, which is None when the argument was absent. -/
def resolvedAccountIds (env : Env) (opts : CmdOptions) : Option (List String) :=
  if ¬ listTruthy opts.account_ids ∧ ¬ opts.no_connect then some env.db_account_ids
  else opts.account_ids

/-- Lines 99-110: the single mode line printed before fetching, following
the if/elif chain over the mutually exclusive selectors. -/
def headerLines (opts : CmdOptions) : List OutputLine :=
  if opts.failed then [OutputLine.processingFailedEvents]
  else if strTruthy opts.type_filter then
    [OutputLine.processingTypeFilter (opts.type_filter.getD "")]
  else if listTruthy opts.ids then
    [OutputLine.processingSpecificEvents (opts.ids.getD [])]
  else [OutputLine.processingAllEvents]

/-- Python dict insertion: replace the value of an existing key in place,
otherwise append the new key at the end (insertion order preserved). -/
def dictInsert (m : List (Option String × List EventData)) (k : Option String)
    (v : List EventData) : List (Option String × List EventData) :=
  if m.any (fun p => p.1 == k) then m.map (fun p => if p.1 == k then (k, v) else p)
  else m ++ [(k, v)]

/-- Error outcome of a command run: the raised exception together with the
lines printed and the remote fetches performed before the raise. -/
abbrev CmdErr := PyError × List OutputLine × List FetchCall

/-- Embedding of Command.handle (lines 71-142) composed with the
process_events call at line 142. On success it returns the counters, the
full output transcript and the fetch log; on an unhandled exception or a
parser.error it returns the exception with the partial transcript and
fetch log. The by-ID branch (lines 114-120) builds a lazy generator whose
body -- including the account_ids[0] subscript -- is never evaluated,
because process_events fails on it first; the listing branch (lines
121-140) eagerly fetches one event list per dict entry. -/
def handle (env : Env) (opts : CmdOptions) :
    Except CmdErr ((Nat × Nat × List OutputLine) × List FetchCall) :=
  match resolvedAccountIds env opts with
  | none => Except.error (PyError.typeError lenNoneMsg, [], [])
  | some accts =>
    if 1 < accts.length ∧ listTruthy opts.ids = true then
      Except.error (PyError.configError configErrorMsg, [], [])
    else
      let lines := headerLines opts
      if listTruthy opts.ids then
        match process_events env.process opts.verbose
            (ListedEvents.generator (opts.ids.getD []) accts) with
        | Except.ok (count, total, ls) => Except.ok ((count, total, lines ++ ls), [])
        | Except.error (e, ls) => Except.error (e, lines ++ ls, [])
      else
        let list_kwargs : ListKwargs :=
          { delivery_success := if opts.failed then some false else none
            event_type := if strTruthy opts.type_filter then opts.type_filter else none }
        let listed0 := [((none : Option String), env.api_list none list_kwargs)]
        let fetches0 := [FetchCall.apiListCall none list_kwargs]
        let listed :=
          if accts.isEmpty then listed0
          else accts.foldl
            (fun d a => dictInsert d (some a) (env.api_list (some a) list_kwargs)) listed0
        let fetches :=
          if accts.isEmpty then fetches0
          else fetches0 ++ accts.map (fun a => FetchCall.apiListCall (some a) list_kwargs)
        match process_events env.process opts.verbose (ListedEvents.mapping listed) with
        | Except.ok (count, total, ls) => Except.ok ((count, total, lines ++ ls), fetches)
        | Except.error (e, ls) => Except.error (e, lines ++ ls, fetches)

/-- Whether a command run raised an (unhandled) IndexError. -/
def raisedIndexError : Except CmdErr ((Nat × Nat × List OutputLine) × List FetchCall) → Bool
  | Except.error (PyError.indexError _, _, _) => true
  | _ => false

/-- Total number of events across all sequences of a tenant mapping. -/
def mappingTotal : List (Option String × List EventData) → Nat
  | [] => 0
  | (_, l) :: rest => l.length + mappingTotal rest

/-- Number of events of a tenant mapping whose dispatch returns without
raising, each dispatched against its own tenant scope. -/
def mappingSuccesses (p : Dispatcher) : List (Option String × List EventData) → Nat
  | [] => 0
  | (a, l) :: rest => (l.filter (fun e => exceptOk (p e a))).length + mappingSuccesses p rest

/-- The two terminal lines of process_events (lines 168-175). -/
def isTerminal : OutputLine → Bool
  | OutputLine.noResults => true
  | OutputLine.processedSummary _ _ => true
  | _ => false

theorem countP_output (lines : List OutputLine) (x : OutputLine)
    (hx : isTerminal x = false) :
    (output lines x).countP isTerminal = lines.countP isTerminal := by
  simp [output, List.countP_append, List.countP_cons, hx]

theorem countP_verbose_output (v : Bool) (lines : List OutputLine) (x : OutputLine)
    (hx : isTerminal x = false) :
    (verbose_output v lines x).countP isTerminal = lines.countP isTerminal := by
  cases v <;> simp [verbose_output, List.countP_append, List.countP_cons, hx]

/-- Accounting invariant of the inner event loop: a completed pass over a
list adds the list length to total, adds the number of non-raising
dispatches to count, and emits no terminal line. -/
theorem processEventList_spec (p : Dispatcher) (v : Bool) (a : Option String) :
    ∀ (l : List EventData) (c t : Nat) (lines : List OutputLine)
      (res : Nat × Nat × List OutputLine),
      processEventList p v a l c t lines = Except.ok res →
      res.1 = c + (l.filter (fun e => exceptOk (p e a))).length ∧
      res.2.1 = t + l.length ∧
      res.2.2.countP isTerminal = lines.countP isTerminal := by
  intro l
  induction l with
  | nil =>
    intro c t lines res h
    simp only [processEventList] at h
    cases h
    simp
  | cons e rest ih =>
    intro c t lines res h
    cases hp : p e a with
    | ok ev =>
      simp only [processEventList, hp] at h
      have h3 := ih (c + 1) (t + 1)
        (verbose_output v lines (OutputLine.syncedEvent ev.id)) res h
      refine ⟨?_, ?_, ?_⟩
      · rw [h3.1, List.filter_cons]
        simp only [hp, exceptOk, if_true, List.length_cons]
        omega
      · rw [h3.2.1, List.length_cons]
        omega
      · rw [h3.2.2, countP_verbose_output v lines (OutputLine.syncedEvent ev.id) rfl]
    | error exc =>
      cases hid : e.id with
      | none =>
        simp only [processEventList, hp, hid] at h
        exact Except.noConfusion h
      | some i =>
        simp only [processEventList, hp, hid] at h
        have h3 := ih c (t + 1)
          (verbose_output v
            (output (verbose_output v lines (OutputLine.failedEvent i))
              (OutputLine.exceptionLine exc))
            OutputLine.tracebackLine) res h
        refine ⟨?_, ?_, ?_⟩
        · rw [h3.1, List.filter_cons]
          simp only [hp, exceptOk]
          simp
        · rw [h3.2.1, List.length_cons]
          omega
        · rw [h3.2.2,
            countP_verbose_output v
              (output (verbose_output v lines (OutputLine.failedEvent i))
                (OutputLine.exceptionLine exc)) OutputLine.tracebackLine rfl,
            countP_output (verbose_output v lines (OutputLine.failedEvent i))
              (OutputLine.exceptionLine exc) rfl,
            countP_verbose_output v lines (OutputLine.failedEvent i) rfl]

/-- Accounting invariant of the outer tenant loop: a completed pass adds the
mapping totals to the counters and emits no terminal line. -/
theorem processItems_spec (p : Dispatcher) (v : Bool) :
    ∀ (m : List (Option String × List EventData)) (c t : Nat)
      (lines : List OutputLine) (res : Nat × Nat × List OutputLine),
      processItems p v m c t lines = Except.ok res →
      res.1 = c + mappingSuccesses p m ∧
      res.2.1 = t + mappingTotal m ∧
      res.2.2.countP isTerminal = lines.countP isTerminal := by
  intro m
  induction m with
  | nil =>
    intro c t lines res h
    simp only [processItems] at h
    cases h
    simp [mappingSuccesses, mappingTotal]
  | cons item rest ih =>
    intro c t lines res h
    obtain ⟨a, l⟩ := item
    simp only [processItems] at h
    cases hinner : processEventList p v a l c t
        (if strTruthy a then
          verbose_output v lines (OutputLine.processingAccount (a.getD ""))
        else verbose_output v lines OutputLine.processingOwnAccount) with
    | error e =>
      rw [hinner] at h
      exact Except.noConfusion h
    | ok inner =>
      rw [hinner] at h
      obtain ⟨c1, t1, ls1⟩ := inner
      have h2 : processItems p v rest c1 t1 ls1 = Except.ok res := h
      have hspec := processEventList_spec p v a l c t _ (c1, t1, ls1) hinner
      have hs1 : c1 = c + (l.filter (fun e => exceptOk (p e a))).length := hspec.1
      have hs2 : t1 = t + l.length := hspec.2.1
      have hs3 : ls1.countP isTerminal =
          (if strTruthy a then
            verbose_output v lines (OutputLine.processingAccount (a.getD ""))
          else verbose_output v lines OutputLine.processingOwnAccount).countP isTerminal :=
        hspec.2.2
      have hrest := ih c1 t1 ls1 res h2
      have hstart :
          (if strTruthy a then
            verbose_output v lines (OutputLine.processingAccount (a.getD ""))
          else verbose_output v lines OutputLine.processingOwnAccount).countP isTerminal =
          lines.countP isTerminal := by
        by_cases hsa : strTruthy a = true
        · rw [if_pos hsa,
            countP_verbose_output v lines (OutputLine.processingAccount (a.getD "")) rfl]
        · rw [if_neg hsa,
            countP_verbose_output v lines OutputLine.processingOwnAccount rfl]
      refine ⟨?_, ?_, ?_⟩
      · rw [hrest.1, hs1, mappingSuccesses]
        omega
      · rw [hrest.2.1, hs2, mappingTotal]
        omega
      · rw [hrest.2.2, hs3, hstart]

/-- C1: for every tenant mapping whose run completes, the final total equals
the number of events across all sequences and the final count equals the
number of events whose dispatch returned without raising. -/
theorem batch_accounting (p : Dispatcher) (v : Bool)
    (m : List (Option String × List EventData)) (res : Nat × Nat × List OutputLine)
    (h : process_events p v (ListedEvents.mapping m) = Except.ok res) :
    res.2.1 = mappingTotal m ∧ res.1 = mappingSuccesses p m := by
  simp only [process_events] at h
  cases hm : processItems p v m 0 0 [] with
  | error e =>
    rw [hm] at h
    exact Except.noConfusion h
  | ok inner =>
    rw [hm] at h
    obtain ⟨c, t, ls⟩ := inner
    have hspec := processItems_spec p v m 0 0 [] (c, t, ls) hm
    have hs1 : c = mappingSuccesses p m := by simpa using hspec.1
    have hs2 : t = mappingTotal m := by simpa using hspec.2.1
    have h2 : Except.ok (c, t,
        if t = 0 then output ls OutputLine.noResults
        else output ls (OutputLine.processedSummary c t)) = Except.ok res := h
    injection h2 with h3
    rw [← h3]
    exact ⟨hs2, hs1⟩

/-- C9: every completed run of process_events over a tenant mapping emits
exactly one terminal line, and it is the last line: the no-results notice
when the total is zero, the processed-out-of-total summary otherwise. -/
theorem terminal_output (p : Dispatcher) (v : Bool)
    (m : List (Option String × List EventData)) (res : Nat × Nat × List OutputLine)
    (h : process_events p v (ListedEvents.mapping m) = Except.ok res) :
    res.2.2.countP isTerminal = 1 ∧
    res.2.2.getLast? =
      some (if res.2.1 = 0 then OutputLine.noResults
            else OutputLine.processedSummary res.1 res.2.1) := by
  simp only [process_events] at h
  cases hm : processItems p v m 0 0 [] with
  | error e =>
    rw [hm] at h
    exact Except.noConfusion h
  | ok inner =>
    rw [hm] at h
    obtain ⟨c, t, ls⟩ := inner
    have hspec := processItems_spec p v m 0 0 [] (c, t, ls) hm
    have hls : ls.countP isTerminal = 0 := by simpa using hspec.2.2
    have h2 : Except.ok (c, t,
        if t = 0 then output ls OutputLine.noResults
        else output ls (OutputLine.processedSummary c t)) = Except.ok res := h
    injection h2 with h3
    rw [← h3]
    by_cases ht : t = 0 <;>
      simp [ht, output, List.countP_append, List.countP_cons, isTerminal, hls]

/-- Concrete event payload carrying an id key. -/
def demoEvent (i : String) : EventData := ⟨some i, ""⟩

/-- Concrete dispatcher inducing exactly one failure, on the event with id
evt_2. -/
def demoProcess : Dispatcher := fun e _ =>
  if e.id == some "evt_2" then Except.error "induced failure"
  else Except.ok ⟨e.id.getD ""⟩

/-- Tenant mapping with sequences of lengths 3, 0 and 2; the induced
failure sits in the first sequence. -/
def demoMapping : List (Option String × List EventData) :=
  [(none, [demoEvent "evt_1", demoEvent "evt_2", demoEvent "evt_3"]),
   (some "acct_1", []),
   (some "acct_2", [demoEvent "evt_4", demoEvent "evt_5"])]

/-- Outcome of the demo run at verbosity 0: counters 4 of 5 and the
summary line. -/
def demoRes : Nat × Nat × List OutputLine :=
  (4, 5, [OutputLine.exceptionLine "induced failure", OutputLine.processedSummary 4 5])

theorem batch_accounting_witness :
    process_events demoProcess false (ListedEvents.mapping demoMapping) =
      Except.ok demoRes ∧
    demoRes.2.1 = mappingTotal demoMapping ∧
    demoRes.1 = mappingSuccesses demoProcess demoMapping ∧
    mappingTotal demoMapping = 5 ∧
    mappingSuccesses demoProcess demoMapping = 4 ∧
    demoRes.2.2.getLast? = some (OutputLine.processedSummary 4 5) := by
  have h := batch_accounting demoProcess false demoMapping demoRes rfl
  exact ⟨rfl, h.1, h.2, rfl, rfl, rfl⟩

theorem terminal_output_witness :
    process_events demoProcess false (ListedEvents.mapping []) =
      Except.ok (0, 0, [OutputLine.noResults]) ∧
    ([OutputLine.noResults] : List OutputLine).countP isTerminal = 1 ∧
    ([OutputLine.noResults] : List OutputLine).getLast? = some OutputLine.noResults := by
  have h := terminal_output demoProcess false [] (0, 0, [OutputLine.noResults]) rfl
  exact ⟨rfl, h.1, h.2⟩

/-- Payload without an id key, as a malformed delivery would carry. -/
def malformedEvent : EventData := ⟨none, "malformed"⟩

/-- Dispatcher raising on every event, as it would on a malformed payload. -/
def failingProcess : Dispatcher := fun _ _ => Except.error "boom"

/-- C3 failing input: when a dispatch failure hits a payload without an id
key, the subscript inside the except handler raises KeyError, so the batch
aborts before the second event and before any terminal line, instead of
tracing the failure and continuing. -/
theorem failure_trace_aborts_on_missing_id :
    process_events failingProcess true
      (ListedEvents.mapping [(none, [malformedEvent, demoEvent "evt_ok"])]) =
      Except.error (PyError.keyError "id", [OutputLine.processingOwnAccount]) := rfl

/-- Environment for by-ID runs against a single explicit connected
account. -/
def envByID : Env := ⟨[], fun _ _ => [], fun i _ => ⟨some i, ""⟩, demoProcess⟩

/-- Options of a by-ID invocation with a single explicit account. -/
def optsByID : CmdOptions := ⟨some ["evt_1"], false, none, some ["acct_1"], false, true⟩

/-- C2 failing input: in by-ID mode with a single tenant scope, handle hands
process_events the generator expression, whose missing items attribute
raises AttributeError before any event is iterated, so the run never
reaches a terminal summary or no-results notice. -/
theorem by_id_generator_crash :
    handle envByID optsByID =
      Except.error (PyError.attributeError attrItemsMsg,
        [OutputLine.processingSpecificEvents ["evt_1"]], []) := rfl

/-- C4: whenever the resolved account list has more than one entry and an
event-ID list was supplied, handle stops with the configuration error of
lines 87-97, with no output line and no remote fetch performed. -/
theorem selector_validation (env : Env) (opts : CmdOptions) (accts : List String)
    (hres : resolvedAccountIds env opts = some accts)
    (hlen : 1 < accts.length) (hids : listTruthy opts.ids = true) :
    handle env opts = Except.error (PyError.configError configErrorMsg, [], []) := by
  simp only [handle, hres]
  rw [if_pos ⟨hlen, hids⟩]

/-- Environment whose tenant discovery finds two connected accounts. -/
def envMulti : Env :=
  ⟨["acct_1", "acct_2"], fun _ _ => [], fun i _ => ⟨some i, ""⟩, demoProcess⟩

/-- Options of a by-ID invocation with auto-discovered accounts. -/
def optsMulti : CmdOptions := ⟨some ["evt_1"], false, none, none, false, true⟩

theorem selector_validation_witness :
    resolvedAccountIds envMulti optsMulti = some ["acct_1", "acct_2"] ∧
    1 < (["acct_1", "acct_2"] : List String).length ∧
    listTruthy optsMulti.ids = true ∧
    handle envMulti optsMulti =
      Except.error (PyError.configError configErrorMsg, [], []) :=
  ⟨rfl, by decide, rfl,
    selector_validation envMulti optsMulti ["acct_1", "acct_2"] rfl (by decide) rfl⟩

/-- Environment whose tenant discovery finds no connected account. -/
def envNoAccounts : Env := ⟨[], fun _ _ => [], fun i _ => ⟨some i, ""⟩, demoProcess⟩

/-- Options of a by-ID invocation with no explicit accounts. -/
def optsByIDEmpty : CmdOptions := ⟨some ["evt_1"], false, none, none, false, true⟩

/-- C10 counterexample: with a non-empty event-ID list and an empty resolved
account list, validation indeed passes, but the unhandled exception is the
AttributeError raised when the runner treats the by-ID generator as a dict,
not an IndexError: the account_ids subscript sits in the lazy generator body
and is never evaluated. -/
theorem by_id_no_accounts_counterexample :
    resolvedAccountIds envNoAccounts optsByIDEmpty = some [] ∧
    handle envNoAccounts optsByIDEmpty =
      Except.error (PyError.attributeError attrItemsMsg,
        [OutputLine.processingSpecificEvents ["evt_1"]], []) ∧
    raisedIndexError (handle envNoAccounts optsByIDEmpty) = false :=
  ⟨rfl, rfl, rfl⟩

/-- C10 amended: with a non-empty event-ID list, when the resolved account
list is empty the validation passes and the command raises an unhandled
AttributeError from the runner treating the by-ID generator as a dict; when
the account list is absent (connect sync disabled and none provided), the
validation length check itself raises an unhandled TypeError. In neither
case is the first-account subscript ever evaluated. -/
theorem by_id_no_accounts_amended (env : Env) (opts : CmdOptions)
    (hids : listTruthy opts.ids = true) (hf : opts.failed = false)
    (ht : strTruthy opts.type_filter = false) :
    (resolvedAccountIds env opts = some [] →
      handle env opts =
        Except.error (PyError.attributeError attrItemsMsg,
          [OutputLine.processingSpecificEvents (opts.ids.getD [])], [])) ∧
    (resolvedAccountIds env opts = none →
      handle env opts = Except.error (PyError.typeError lenNoneMsg, [], [])) := by
  constructor
  · intro hres
    simp [handle, hres, headerLines, process_events, hf, ht, hids]
  · intro hres
    simp [handle, hres]

theorem by_id_no_accounts_amended_witness :
    listTruthy optsByIDEmpty.ids = true ∧
    optsByIDEmpty.failed = false ∧
    strTruthy optsByIDEmpty.type_filter = false ∧
    resolvedAccountIds envNoAccounts optsByIDEmpty = some [] ∧
    handle envNoAccounts optsByIDEmpty =
      Except.error (PyError.attributeError attrItemsMsg,
        [OutputLine.processingSpecificEvents ["evt_1"]], []) := by
  have h := by_id_no_accounts_amended envNoAccounts optsByIDEmpty rfl rfl rfl
  exact ⟨rfl, rfl, rfl, rfl, h.1 rfl⟩
